import Mathlib

/-!
Shallow embedding of `src/sqllogictest-bin/src/engines/postgres_extended.rs`:
the postgres-extended engine adapter of sqllogictest-rs.  The adapter's
`run` executes one SQL statement against a database session and renders the
result set into one canonical string.  The database session (tokio-postgres
client) is modelled as an oracle (`Db`) mapping a statement text plus bound
parameters to a typed response; `run` and the per-type canonicalization
rules are translated from the source.  Rust panics (`unwrap`, `assert!`,
`todo!`) are modelled by an explicit `panic` outcome, distinct from the
`Err` result that `run` returns through `?`.
-/

namespace PgExt

/-- Error value returned by the underlying session (`tokio_postgres::error::Error`),
modelled as its message text. -/
abbrev PgError := String

/-- Client-side decoded `rust_decimal::Decimal`: an integer mantissa scaled by
`10 ^ scale`. -/
structure Decimal where
  mantissa : Int
  scale : Nat
deriving DecidableEq

/-- Client-side decoded `chrono::NaiveDate`. -/
structure NaiveDate where
  year : Int
  month : Nat
  day : Nat
deriving DecidableEq

/-- Client-side decoded `chrono::NaiveTime` (nanoseconds below one second). -/
structure NaiveTime where
  hour : Nat
  minute : Nat
  second : Nat
  nano : Nat
deriving DecidableEq

/-- Client-side decoded `chrono::NaiveDateTime`. -/
structure NaiveDateTime where
  date : NaiveDate
  time : NaiveTime
deriving DecidableEq

/-- Client-side decoded `pg_interval::Interval`. -/
structure Interval where
  months : Int
  days : Int
  microseconds : Int
deriving DecidableEq

/-- Client-side decoded `chrono::DateTime<Utc>` instant. -/
structure TimestampTz where
  microsSinceEpoch : Int
deriving DecidableEq

/-- An IEEE float as the source observes it: the three special classes tested
by `float4_to_str` / `float8_to_str` (`is_nan`, `== INFINITY`,
`== NEG_INFINITY`), or a finite value carried as the text of its default Rust
`Display` form (the shortest round-tripping decimal, produced by
`value.to_string()` in the source; that library routine is external to the
repository, so the finite case carries its output verbatim). -/
inductive FloatRepr : Type
  | nan : FloatRepr
  | inf : FloatRepr
  | neginf : FloatRepr
  | finite (text : String) : FloatRepr
deriving DecidableEq

/-- Left-pad the decimal digits of `n` with zeroes to width `w`. -/
def padZeroes (w : Nat) (n : Nat) : String :=
  let s := toString n
  ⟨List.replicate (w - s.length) '0'⟩ ++ s

/-- Display of `i16`/`i32`/`i64` (the `write!` path of `single_process` with
no converter): signed decimal text, as Lean's `Int` printing. -/
def intDisplay (i : Int) : String := toString i

/-- Display impl of `rust_decimal::Decimal`: exact decimal text, sign, then
digits with a point inserted `scale` places from the right (zero-padded). -/
def Decimal.toStr (d : Decimal) : String :=
  let sign := if d.mantissa < 0 then "-" else ""
  let digits := toString d.mantissa.natAbs
  if d.scale = 0 then sign ++ digits
  else
    let digits :=
      if digits.length ≤ d.scale then
        (⟨List.replicate (d.scale + 1 - digits.length) '0'⟩ : String) ++ digits
      else digits
    sign ++ (⟨digits.data.take (digits.length - d.scale)⟩ : String) ++ "." ++
      (⟨digits.data.drop (digits.length - d.scale)⟩ : String)

/-- Display impl of `chrono::NaiveDate`: `YYYY-MM-DD`, year zero-padded to
four digits, years outside `0..=9999` carrying an explicit sign. -/
def NaiveDate.toStr (d : NaiveDate) : String :=
  (if 0 ≤ d.year ∧ d.year ≤ 9999 then padZeroes 4 d.year.toNat
   else if d.year < 0 then "-" ++ padZeroes 4 d.year.natAbs
   else "+" ++ padZeroes 4 d.year.toNat)
  ++ "-" ++ padZeroes 2 d.month ++ "-" ++ padZeroes 2 d.day

/-- Fractional-second suffix of chrono's time Display: empty when zero,
otherwise a point and 3, 6 or 9 digits depending on the finest unit set. -/
def fracSuffix (nano : Nat) : String :=
  if nano = 0 then ""
  else if nano % 1000000 = 0 then "." ++ padZeroes 3 (nano / 1000000)
  else if nano % 1000 = 0 then "." ++ padZeroes 6 (nano / 1000)
  else "." ++ padZeroes 9 nano

/-- Display impl of `chrono::NaiveTime`: `HH:MM:SS` with optional fractional
suffix. -/
def NaiveTime.toStr (t : NaiveTime) : String :=
  padZeroes 2 t.hour ++ ":" ++ padZeroes 2 t.minute ++ ":" ++ padZeroes 2 t.second
    ++ fracSuffix t.nano

/-- Display impl of `chrono::NaiveDateTime`: date, one space, time. -/
def NaiveDateTime.toStr (dt : NaiveDateTime) : String :=
  dt.date.toStr ++ " " ++ dt.time.toStr

/-- Translation of `bool_to_str` (postgres_extended.rs lines 173-179). -/
def bool_to_str (value : Bool) : String :=
  if value then "t" else "f"

/-- Translation of `varchar_to_str` (postgres_extended.rs lines 181-187). -/
def varchar_to_str (value : String) : String :=
  if value.isEmpty then "(empty)" else value

/-- Translation of `float4_to_str` (postgres_extended.rs lines 189-199). -/
def float4_to_str : FloatRepr → String
  | .nan => "NaN"
  | .inf => "Infinity"
  | .neginf => "-Infinity"
  | .finite text => text

/-- Translation of `float8_to_str` (postgres_extended.rs lines 201-211). -/
def float8_to_str : FloatRepr → String
  | .nan => "NaN"
  | .inf => "Infinity"
  | .neginf => "-Infinity"
  | .finite text => text

/-- One decoded column of a result row, together with its wire type: one
constructor per arm of the `match column.type_()` dispatch in `run`
(`VARCHAR | TEXT` and `VARCHAR_ARRAY | TEXT_ARRAY` are each one arm, hence
one constructor).  `none` is SQL NULL, at the column or at the element
level.  `unsupported` stands for a column whose wire type matches none of
the listed arms. -/
inductive PgValue : Type
  | int2 (v : Option Int)
  | int4 (v : Option Int)
  | int8 (v : Option Int)
  | numeric (v : Option Decimal)
  | date (v : Option NaiveDate)
  | time (v : Option NaiveTime)
  | timestamp (v : Option NaiveDateTime)
  | boolean (v : Option Bool)
  | varchar (v : Option String)
  | float4 (v : Option FloatRepr)
  | float8 (v : Option FloatRepr)
  | interval (v : Option Interval)
  | timestamptz (v : Option TimestampTz)
  | int2Array (v : Option (List (Option Int)))
  | int4Array (v : Option (List (Option Int)))
  | int8Array (v : Option (List (Option Int)))
  | boolArray (v : Option (List (Option Bool)))
  | float4Array (v : Option (List (Option FloatRepr)))
  | float8Array (v : Option (List (Option FloatRepr)))
  | numericArray (v : Option (List (Option Decimal)))
  | dateArray (v : Option (List (Option NaiveDate)))
  | timeArray (v : Option (List (Option NaiveTime)))
  | timestampArray (v : Option (List (Option NaiveDateTime)))
  | varcharArray (v : Option (List (Option String)))
  | intervalArray (v : Option (List (Option Interval)))
  | timestamptzArray (v : Option (List (Option TimestampTz)))
  | unsupported (typeName : String)
deriving DecidableEq

/-- A value bound as the single positional parameter of a secondary cast
statement (`&[&v]` in the source): only interval and zoned-timestamp values
are ever bound. -/
inductive CastParam : Type
  | interval (v : Interval)
  | timestamptz (v : TimestampTz)
deriving DecidableEq

/-- Oracle for the database session (`tokio_postgres::Client`): `query`
answers a statement with bound parameters by rows of typed columns (the
primary statement is issued with no parameters, the secondary cast
statements with one), `execute` answers a non-result statement with an
affected-row count.  Either can fail with a `PgError`. -/
structure Db : Type where
  query : String → List CastParam → Except PgError (List (List PgValue))
  execute : String → Except PgError Nat

/-- Outcome of a rendering step: a rendered string, or a Rust panic
(`unwrap` on `Err`/`None`, a failed `assert!`, or `todo!`). -/
inductive Render (α : Type) : Type
  | ok (a : α) : Render α
  | panic (msg : String) : Render α
deriving DecidableEq

/-- Checks the `panic` constructor. -/
def Render.isPanic {α : Type} : Render α → Bool
  | .panic _ => true
  | .ok _ => false

/-- Outcome of one `run` call as the process observes it: the `Ok` string,
the `Err` value returned to the caller, or a panic aborting the process. -/
inductive RunResult (ε α : Type) : Type
  | ok (a : α) : RunResult ε α
  | err (e : ε) : RunResult ε α
  | panic (msg : String) : RunResult ε α
deriving DecidableEq

/-- Checks the `panic` constructor. -/
def RunResult.isPanic {ε α : Type} : RunResult ε α → Bool
  | .panic _ => true
  | _ => false

/-- Checks the `err` constructor. -/
def RunResult.isErr {ε α : Type} : RunResult ε α → Bool
  | .err _ => true
  | _ => false

/-- Translation of the `single_process!` macro (lines 133-155), both the
plain variant (`toStr` is the type's Display) and the converter variant
(`toStr` is the named converter): a present value is rendered by `toStr`,
NULL as the literal `NULL`. -/
def single_process {α : Type} (value : Option α) (toStr : α → String) : String :=
  match value with
  | some value => toStr value
  | none => "NULL"

/-- Element loop of the `array_process!` macro (lines 56-69): render each
element (NULL element as `NULL`), and append a comma after every element
whose index `i` satisfies `i < len - 1`, `len` being the array length. -/
def array_elems {α : Type} (toStr : α → String) :
    List (Option α) → Nat → Nat → String
  | [], _, _ => ""
  | v :: rest, i, len =>
    (match v with
     | some v => toStr v
     | none => "NULL")
    ++ (if i < len - 1 then "," else "")
    ++ array_elems toStr rest (i + 1) len

/-- Translation of the `array_process!` macro (lines 51-101), plain and
converter variants: NULL array as `NULL`, otherwise the element loop between
braces. -/
def array_process {α : Type} (value : Option (List (Option α))) (toStr : α → String) : String :=
  match value with
  | some value => "\x7b" ++ array_elems toStr value 0 value.length ++ "\x7d"
  | none => "NULL"

/-- Statement text of a secondary cast round-trip:
`format!("select ($1::\x7b\x7d)::varchar", stringify!($ty_name))`. -/
def cast_sql (tyName : String) : String :=
  "select ($1::" ++ tyName ++ ")::varchar"

/-- Processing of a secondary cast response (lines 161-164): `unwrap` the
query result (an `Err` panics), `unwrap` row 0 (no row panics), decode
column 0 as `&str` (a missing, non-text or NULL column panics),
`assert!(value.len() > 0)` (an empty text panics), and use the text
verbatim. -/
def cast_response (resp : Except PgError (List (List PgValue))) : Render String :=
  match resp with
  | .error e => .panic ("Result::unwrap on Err: " ++ e)
  | .ok tmp_rows =>
    match tmp_rows.head? with
    | none => .panic "Option::unwrap on None"
    | some row =>
      match row.head? with
      | some (PgValue.varchar (some value)) =>
        if value.length > 0 then .ok value
        else .panic "assertion failed: value.len() > 0"
      | some _ => .panic "Row::get: cannot decode column 0 as str"
      | none => .panic "Row::get: no column 0"

/-- One secondary cast round-trip: issue `cast_sql tyName` through the same
connection with the value bound as the single parameter, then process the
response. -/
def cast_cell (db : Db) (tyName : String) (p : CastParam) : Render String :=
  cast_response (db.query (cast_sql tyName) [p])

/-- Translation of the cast variant of `single_process!` (lines 156-170):
a present value goes through a secondary cast round-trip, NULL renders as
`NULL` with no round-trip. -/
def single_process_cast {α : Type} (db : Db) (tyName : String)
    (enc : α → CastParam) (value : Option α) : Render String :=
  match value with
  | some value => cast_cell db tyName (enc value)
  | none => .ok "NULL"

/-- Element loop of the cast variant of `array_process!` (lines 102-130):
each present element triggers its own cast round-trip (a panic there aborts
the whole rendering), NULL elements render as `NULL`, and the comma rule is
the same as in `array_elems`. -/
def array_elems_cast {α : Type} (db : Db) (tyName : String) (enc : α → CastParam) :
    List (Option α) → Nat → Nat → Render String
  | [], _, _ => .ok ""
  | v :: rest, i, len =>
    match
      (match v with
       | some v => cast_cell db tyName (enc v)
       | none => .ok "NULL" : Render String)
    with
    | .panic m => .panic m
    | .ok t =>
      match array_elems_cast db tyName enc rest (i + 1) len with
      | .panic m => .panic m
      | .ok ts => .ok (t ++ (if i < len - 1 then "," else "") ++ ts)

/-- Translation of the cast variant of `array_process!`: NULL array as
`NULL`, otherwise the cast element loop between braces. -/
def array_process_cast {α : Type} (db : Db) (tyName : String)
    (enc : α → CastParam) (value : Option (List (Option α))) : Render String :=
  match value with
  | some value =>
    match array_elems_cast db tyName enc value 0 value.length with
    | .panic m => .panic m
    | .ok s => .ok ("\x7b" ++ s ++ "\x7d")
  | none => .ok "NULL"

/-- Per-column dispatch of `run` (the `match column.type_()` at lines
237-333), one arm per wire type; the fallback arm is
`todo!("Don't support \x7b\x7d type now.", ...)`, a panic. -/
def render_column (db : Db) (column : PgValue) : Render String :=
  match column with
  | .int2 value => .ok (single_process value intDisplay)
  | .int4 value => .ok (single_process value intDisplay)
  | .int8 value => .ok (single_process value intDisplay)
  | .numeric value => .ok (single_process value Decimal.toStr)
  | .date value => .ok (single_process value NaiveDate.toStr)
  | .time value => .ok (single_process value NaiveTime.toStr)
  | .timestamp value => .ok (single_process value NaiveDateTime.toStr)
  | .boolean value => .ok (single_process value bool_to_str)
  | .varchar value => .ok (single_process value varchar_to_str)
  | .float4 value => .ok (single_process value float4_to_str)
  | .float8 value => .ok (single_process value float8_to_str)
  | .interval value => single_process_cast db "INTERVAL" CastParam.interval value
  | .timestamptz value => single_process_cast db "TIMESTAMPTZ" CastParam.timestamptz value
  | .int2Array value => .ok (array_process value intDisplay)
  | .int4Array value => .ok (array_process value intDisplay)
  | .int8Array value => .ok (array_process value intDisplay)
  | .boolArray value => .ok (array_process value bool_to_str)
  | .float4Array value => .ok (array_process value float4_to_str)
  | .float8Array value => .ok (array_process value float8_to_str)
  | .numericArray value => .ok (array_process value Decimal.toStr)
  | .dateArray value => .ok (array_process value NaiveDate.toStr)
  | .timeArray value => .ok (array_process value NaiveTime.toStr)
  | .timestampArray value => .ok (array_process value NaiveDateTime.toStr)
  | .varcharArray value => .ok (array_process value varchar_to_str)
  | .intervalArray value => array_process_cast db "INTERVAL" CastParam.interval value
  | .timestamptzArray value => array_process_cast db "TIMESTAMPTZ" CastParam.timestamptz value
  | .unsupported typeName =>
    .panic ("not yet implemented: Don't support " ++ typeName ++ " type now.")

/-- Column loop of `run` (lines 233-334): a single space before every column
except the one at index 0, then that column's canonical text; the first
panic aborts. -/
def render_cols (db : Db) : List PgValue → Nat → Render String
  | [], _ => .ok ""
  | column :: rest, idx =>
    match render_column db column with
    | .panic m => .panic m
    | .ok t =>
      match render_cols db rest (idx + 1) with
      | .panic m => .panic m
      | .ok ts => .ok ((if idx ≠ 0 then " " else "") ++ t ++ ts)

/-- Row loop of `run` (lines 232-336): each row's columns starting at index
0, then `writeln!` appends one newline; rows in the order returned. -/
def render_rows (db : Db) : List (List PgValue) → Render String
  | [] => .ok ""
  | row :: rest =>
    match render_cols db row 0 with
    | .panic m => .panic m
    | .ok line =>
      match render_rows db rest with
      | .panic m => .panic m
      | .ok out => .ok (line ++ "\n" ++ out)

/-- Model of `str::to_ascii_lowercase`: lower-case the ASCII letters of the
text (Lean's `Char.toLower` maps exactly the letters `A`-`Z`). -/
def to_ascii_lowercase (s : String) : String :=
  ⟨s.data.map Char.toLower⟩

/-- Model of `str::starts_with` on the character view of strings (for valid
UTF-8, byte-prefix and character-prefix agree). -/
def starts_with (s p : String) : Bool :=
  List.isPrefixOf p.data s.data

/-- Statement classification of `run` (lines 222-229): lower-case the raw
statement and test the five prefixes. -/
def is_query_sql (sql : String) : Bool :=
  let lower_sql := to_ascii_lowercase sql
  starts_with lower_sql "select" || starts_with lower_sql "values" ||
  starts_with lower_sql "show" || starts_with lower_sql "with" ||
  starts_with lower_sql "describe"

/-- Translation of `run` (lines 217-341): classify; on the query path issue
the statement with no parameters (`?` propagates an `Err`), render the rows
(a panic aborts); on the command path `execute` (`?` propagates an `Err`),
discard the count and return the untouched empty output. -/
def run (db : Db) (sql : String) : RunResult PgError String :=
  if is_query_sql sql then
    match db.query sql [] with
    | .error e => .err e
    | .ok rows =>
      match render_rows db rows with
      | .ok output => .ok output
      | .panic m => .panic m
  else
    match db.execute sql with
    | .error e => .err e
    | .ok _ => .ok ""

/-- Engine identity string (`engine_name`, lines 343-345). -/
def engine_name : String := "postgres-extended"

/-- Specification-side helper: does the character occur in the string. -/
def has_char (s : String) (c : Char) : Bool :=
  s.data.contains c

/-- Specification-side helper: concatenation of a list of strings. -/
def concat_all : List String → String
  | [] => ""
  | s :: rest => s ++ concat_all rest

/-- Specification-side helper: join with a separator between consecutive
elements, none leading or trailing. -/
def join_sep (sep : String) : List String → String
  | [] => ""
  | [s] => s
  | s :: rest => s ++ sep ++ join_sep sep rest

/-- Canonical text of one column under a given oracle, defaulting to the
empty string on a panic (only used under hypotheses excluding panics). -/
def col_text (db : Db) (column : PgValue) : String :=
  match render_column db column with
  | .ok t => t
  | .panic _ => ""

/-- Specification-side line for one row: column texts joined by one space,
one terminating newline. -/
def row_line (db : Db) (row : List PgValue) : String :=
  join_sep " " (row.map (col_text db)) ++ "\n"

/-- Oracle whose every query answers one row holding the text `a b`. -/
def db_text_ab : Db :=
  ⟨fun _ _ => .ok [[PgValue.varchar (some "a b")]], fun _ => .ok 0⟩

/-- Oracle whose query and execute always fail with `boom`. -/
def db_all_err : Db :=
  ⟨fun _ _ => .error "boom", fun _ => .error "boom"⟩

/-- Oracle answering the primary statement `select i` with one interval
column and failing every other statement (in particular the secondary cast
statement) with `boom`. -/
def db_cast_err : Db :=
  ⟨fun sql _ =>
      if sql = "select i" then .ok [[PgValue.interval (some ⟨0, 0, 0⟩)]]
      else .error "boom",
   fun _ => .ok 0⟩

/-- Oracle whose every query answers one integer row and whose execute
succeeds. -/
def db_one_int : Db :=
  ⟨fun _ _ => .ok [[PgValue.int4 (some 1)]], fun _ => .ok 0⟩

/-- Oracle whose every query answers one two-column row: the integer `1` and
the empty text. -/
def db_row_example : Db :=
  ⟨fun _ _ => .ok [[PgValue.int4 (some 1), PgValue.varchar (some "")]], fun _ => .ok 0⟩

/-- Oracle answering the interval cast statement with the text `00:00:01`,
the zoned-timestamp cast statement with the empty text, and failing
everything else. -/
def db_cast_ok : Db :=
  ⟨fun sql _ =>
      if sql = cast_sql "INTERVAL" then .ok [[PgValue.varchar (some "00:00:01")]]
      else if sql = cast_sql "TIMESTAMPTZ" then .ok [[PgValue.varchar (some "")]]
      else .error "unexpected",
   fun _ => .ok 0⟩

/-- Oracle whose every query answers one column of an unsupported wire
type. -/
def db_unsupported : Db :=
  ⟨fun _ _ => .ok [[PgValue.unsupported "money"]], fun _ => .ok 0⟩

/-- The element loop of `array_process!` produces the comma-joined element
texts, each element rendered by the scalar rule, when started at index `i`
with the total length `i + xs.length`. -/
theorem array_elems_eq_join {α : Type} (toStr : α → String) :
    ∀ (xs : List (Option α)) (i : Nat),
      array_elems toStr xs i (i + xs.length) =
        join_sep "," (xs.map (fun o => single_process o toStr)) := by
  intro xs
  induction xs with
  | nil => intro i; rfl
  | cons v rest ih =>
    intro i
    cases rest with
    | nil =>
      show single_process v toStr ++ (if i < i + 1 - 1 then "," else "") ++
          array_elems toStr [] (i + 1) (i + 1) = _
      rw [show i + 1 - 1 = i from rfl, if_neg (Nat.lt_irrefl i)]
      simp [array_elems, join_sep, String.append_empty]
    | cons w ws =>
      show single_process v toStr ++ (if i < i + (ws.length + 1 + 1) - 1 then "," else "") ++
          array_elems toStr (w :: ws) (i + 1) (i + (ws.length + 1 + 1)) = _
      rw [if_pos (by omega), show i + (ws.length + 1 + 1) = (i + 1) + (w :: ws).length by
        simp; omega]
      rw [ih (i + 1)]
      simp [join_sep, String.append_assoc]

/-- Prefixing every element with a separator and concatenating equals the
separator followed by the separator-join. -/
theorem concat_map_sep (sep : String) :
    ∀ (s : String) (l : List String),
      concat_all ((s :: l).map (fun t => sep ++ t)) = sep ++ join_sep sep (s :: l) := by
  intro s l
  induction l generalizing s with
  | nil => simp [concat_all, join_sep, String.append_empty]
  | cons w ws ih =>
    show (sep ++ s) ++ concat_all ((w :: ws).map (fun t => sep ++ t)) = _
    rw [ih w]
    simp [join_sep, String.append_assoc]

/-- Column loop started past index 0: every column is preceded by one
space. -/
theorem render_cols_succ (db : Db) :
    ∀ (row : List PgValue) (i : Nat) (t : String),
      render_cols db row (i + 1) = .ok t →
      t = concat_all (row.map (fun v => " " ++ col_text db v)) := by
  intro row
  induction row with
  | nil =>
    intro i t h
    simp only [render_cols] at h
    cases h
    rfl
  | cons v rest ih =>
    intro i t h
    simp only [render_cols] at h
    cases hv : render_column db v with
    | panic m => rw [hv] at h; cases h
    | ok tv =>
      rw [hv] at h
      cases hr : render_cols db rest (i + 1 + 1) with
      | panic m => rw [hr] at h; cases h
      | ok ts =>
        rw [hr] at h
        rw [if_pos (Nat.succ_ne_zero i)] at h
        cases h
        have hts := ih (i + 1) ts hr
        have hct : col_text db v = tv := by rw [col_text, hv]
        simp [concat_all, hct, hts, String.append_assoc]

/-- Column loop started at index 0: the row text is the column texts joined
by single spaces. -/
theorem render_cols_zero (db : Db) :
    ∀ (row : List PgValue) (t : String),
      render_cols db row 0 = .ok t → t = join_sep " " (row.map (col_text db)) := by
  intro row t h
  cases row with
  | nil => simp only [render_cols] at h; cases h; rfl
  | cons v rest =>
    simp only [render_cols] at h
    cases hv : render_column db v with
    | panic m => rw [hv] at h; cases h
    | ok tv =>
      rw [hv] at h
      cases hr : render_cols db rest 1 with
      | panic m => rw [hr] at h; cases h
      | ok ts =>
        rw [hr] at h
        rw [if_neg (by simp)] at h
        cases h
        have hts := render_cols_succ db rest 0 ts hr
        have hct : col_text db v = tv := by rw [col_text, hv]
        cases rest with
        | nil =>
          simp [concat_all] at hts
          simp [join_sep, hct, hts, String.empty_append, String.append_empty]
        | cons w ws =>
          rw [show (w :: ws).map (fun v => " " ++ col_text db v) =
                ((w :: ws).map (col_text db)).map (fun s => " " ++ s) by
              simp] at hts
          rw [List.map_cons (col_text db) w ws,
            concat_map_sep " " (col_text db w) (ws.map (col_text db))] at hts
          simp [join_sep, hct, hts, String.empty_append, String.append_assoc]

/-- Row loop: a successful rendering is the concatenation of the per-row
lines in order. -/
theorem render_rows_ok (db : Db) :
    ∀ (rows : List (List PgValue)) (s : String),
      render_rows db rows = .ok s → s = concat_all (rows.map (row_line db)) := by
  intro rows
  induction rows with
  | nil => intro s h; simp only [render_rows] at h; cases h; rfl
  | cons row rest ih =>
    intro s h
    simp only [render_rows] at h
    cases hl : render_cols db row 0 with
    | panic m => rw [hl] at h; cases h
    | ok line =>
      rw [hl] at h
      cases hr : render_rows db rest with
      | panic m => rw [hr] at h; cases h
      | ok out =>
        rw [hr] at h
        cases h
        have h1 := render_cols_zero db row line hl
        have h2 := ih out hr
        simp [concat_all, row_line, h1, h2, String.append_assoc]

/-- A row containing a column of an unsupported wire type never renders: the
column loop panics. -/
theorem render_cols_panics_of_unsupported (db : Db) (typeName : String) :
    ∀ (row : List PgValue) (i : Nat), PgValue.unsupported typeName ∈ row →
      (render_cols db row i).isPanic = true := by
  intro row
  induction row with
  | nil => intro i h; cases h
  | cons v rest ih =>
    intro i h
    rcases List.mem_cons.mp h with hv | hrest
    · subst hv
      simp [render_cols, render_column, Render.isPanic]
    · cases hv : render_column db v with
      | panic m => simp [render_cols, hv, Render.isPanic]
      | ok tv =>
        have := ih (i + 1) hrest
        cases hr : render_cols db rest (i + 1) with
        | panic m => simp [render_cols, hv, hr, Render.isPanic]
        | ok ts => rw [hr] at this; simp [Render.isPanic] at this

/-- A result set containing a column of an unsupported wire type never
renders: the row loop panics. -/
theorem render_rows_panics_of_unsupported (db : Db) (typeName : String) :
    ∀ (rows : List (List PgValue)) (row : List PgValue), row ∈ rows →
      PgValue.unsupported typeName ∈ row → (render_rows db rows).isPanic = true := by
  intro rows
  induction rows with
  | nil => intro row h; cases h
  | cons first rest ih =>
    intro row h hmem
    rcases List.mem_cons.mp h with hfirst | hrest
    · subst hfirst
      have := render_cols_panics_of_unsupported db typeName row 0 hmem
      cases hl : render_cols db row 0 with
      | panic m => simp [render_rows, hl, Render.isPanic]
      | ok line => rw [hl] at this; simp [Render.isPanic] at this
    · have := ih row hrest hmem
      cases hl : render_cols db first 0 with
      | panic m => simp [render_rows, hl, Render.isPanic]
      | ok line =>
        cases hr : render_rows db rest with
        | panic m => simp [render_rows, hl, hr, Render.isPanic]
        | ok out => rw [hr] at this; simp [Render.isPanic] at this

/-- C1 (counterexample): a variable-text column whose value is `a b` is
rendered by `run` with its space intact, so a Canonical Text produced by
`run` can contain an unescaped column delimiter. -/
theorem claim_C1_counterexample :
    run db_text_ab "select v" = RunResult.ok "a b\n" ∧ has_char "a b" ' ' = true :=
  ⟨rfl, rfl⟩

/-- C1 (amended): Canonical Text can contain spaces and newlines.  A
non-empty variable-text value is rendered verbatim, so its canonical text
contains a space or newline exactly when the value does, and a timestamp's
canonical text always contains the space between its date and time parts;
row/column delimiters are only inserted between already-rendered values,
with no escaping inside them. -/
theorem claim_C1_amended :
    ∀ (s : String) (dt : NaiveDateTime),
      has_char (varchar_to_str s) ' ' = has_char s ' '
      ∧ has_char (varchar_to_str s) '\n' = has_char s '\n'
      ∧ (s ≠ "" → varchar_to_str s = s)
      ∧ has_char (NaiveDateTime.toStr dt) ' ' = true := by
  intro s dt
  refine ⟨?_, ?_, fun hne => ?_, ?_⟩
  · cases h : s.isEmpty with
    | true => rw [(String.isEmpty_iff s).mp h]; rfl
    | false => simp [varchar_to_str, h]
  · cases h : s.isEmpty with
    | true => rw [(String.isEmpty_iff s).mp h]; rfl
    | false => simp [varchar_to_str, h]
  · have h : s.isEmpty = false := by
      cases h : s.isEmpty with
      | true => exact absurd ((String.isEmpty_iff s).mp h) hne
      | false => rfl
    simp [varchar_to_str, h]
  · have : ' ' ∈ (NaiveDateTime.toStr dt).data := by
      simp [NaiveDateTime.toStr, String.data_append]
    simpa [has_char] using this

/-- C1 (witness for the amended theorem): at the concrete value `a b` the
verbatim rule applies and the space-content equation holds. -/
theorem claim_C1_witness :
    varchar_to_str "a b" = "a b"
    ∧ has_char (varchar_to_str "a b") ' ' = has_char "a b" ' ' :=
  ⟨(claim_C1_amended "a b" ⟨⟨2020, 1, 1⟩, ⟨0, 0, 0, 0⟩⟩).2.2.1 (by decide),
   (claim_C1_amended "a b" ⟨⟨2020, 1, 1⟩, ⟨0, 0, 0, 0⟩⟩).1⟩

/-- C2 (counterexample): a failure of the secondary cast statement issued
while rendering an interval value is not propagated as the `Err` result of
`run`; it aborts the process with a panic (`unwrap` on an `Err`). -/
theorem claim_C2_counterexample :
    db_cast_err.query (cast_sql "INTERVAL") [CastParam.interval ⟨0, 0, 0⟩] =
      Except.error "boom"
    ∧ run db_cast_err "select i" = RunResult.panic "Result::unwrap on Err: boom"
    ∧ (run db_cast_err "select i").isErr = false :=
  ⟨rfl, rfl, rfl⟩

/-- C2 (amended): a failure of the primary statement (the `query` or
`execute` call for the SQL text itself) is propagated verbatim as the `Err`
result of `run`; a failure of a secondary cast statement is not returned as
`Err` but aborts rendering with a panic. -/
theorem claim_C2_amended :
    ∀ (db : Db) (sql : String) (e : PgError) (tyName : String) (p : CastParam),
      (is_query_sql sql = true → db.query sql [] = .error e → run db sql = .err e)
      ∧ (is_query_sql sql = false → db.execute sql = .error e → run db sql = .err e)
      ∧ (db.query (cast_sql tyName) [p] = .error e →
          cast_cell db tyName p = Render.panic ("Result::unwrap on Err: " ++ e)) := by
  intro db sql e tyName p
  refine ⟨fun hq herr => ?_, fun hq herr => ?_, fun herr => ?_⟩
  · simp [run, hq, herr]
  · simp [run, hq, herr]
  · unfold cast_cell
    rw [herr]
    rfl

/-- C2 (witness for the amended theorem): concrete failing statements on
both primary paths are returned as `Err`, and a concrete failing cast
round-trip panics. -/
theorem claim_C2_witness :
    run db_all_err "select 1" = RunResult.err "boom"
    ∧ run db_all_err "insert into t values (1)" = RunResult.err "boom"
    ∧ cast_cell db_all_err "INTERVAL" (CastParam.interval ⟨1, 2, 3⟩) =
        Render.panic "Result::unwrap on Err: boom" :=
  ⟨(claim_C2_amended db_all_err "select 1" "boom" "INTERVAL"
      (CastParam.interval ⟨1, 2, 3⟩)).1 (by decide) rfl,
   (claim_C2_amended db_all_err "insert into t values (1)" "boom" "INTERVAL"
      (CastParam.interval ⟨1, 2, 3⟩)).2.1 (by decide) rfl,
   (claim_C2_amended db_all_err "select 1" "boom" "INTERVAL"
      (CastParam.interval ⟨1, 2, 3⟩)).2.2 rfl⟩

/-- C3: a statement is treated as result-producing exactly when its
ASCII-lower-cased form starts with one of `select`, `values`, `show`,
`with`, `describe`; a result-producing statement goes through `query` and
row rendering, and any other statement goes through `execute` with `run`
returning the empty string on success. -/
theorem claim_C3 :
    ∀ (db : Db) (sql : String),
      (is_query_sql sql =
        (starts_with (to_ascii_lowercase sql) "select" ||
         starts_with (to_ascii_lowercase sql) "values" ||
         starts_with (to_ascii_lowercase sql) "show" ||
         starts_with (to_ascii_lowercase sql) "with" ||
         starts_with (to_ascii_lowercase sql) "describe"))
      ∧ (is_query_sql sql = true →
          run db sql =
            (match db.query sql [] with
             | .error e => RunResult.err e
             | .ok rows =>
               match render_rows db rows with
               | .ok output => RunResult.ok output
               | .panic m => RunResult.panic m))
      ∧ (is_query_sql sql = false →
          run db sql =
            (match db.execute sql with
             | .error e => RunResult.err e
             | .ok _ => RunResult.ok "")) := by
  intro db sql
  refine ⟨rfl, fun hq => ?_, fun hq => ?_⟩
  · simp [run, hq]
  · simp [run, hq]

/-- C3 (witness): `SELECT 1` is classified as a query and rendered,
`INSERT INTO t VALUES (1)` is executed and yields the empty string. -/
theorem claim_C3_witness :
    is_query_sql "SELECT 1" = true
    ∧ run db_one_int "SELECT 1" = RunResult.ok "1\n"
    ∧ is_query_sql "INSERT INTO t VALUES (1)" = false
    ∧ run db_one_int "INSERT INTO t VALUES (1)" = RunResult.ok "" :=
  ⟨by decide,
   ((claim_C3 db_one_int "SELECT 1").2.1 (by decide)).trans (by decide),
   by decide,
   ((claim_C3 db_one_int "INSERT INTO t VALUES (1)").2.2 (by decide)).trans (by decide)⟩

/-- A non-NULL array renders as braces around the comma-join of the element
texts, each element rendered by the scalar rule (`single_process`). -/
theorem array_process_some_eq {α : Type} (toStr : α → String) (xs : List (Option α)) :
    array_process (some xs) toStr =
      "\x7b" ++ join_sep "," (xs.map fun o => single_process o toStr) ++ "\x7d" := by
  have h := array_elems_eq_join toStr xs 0
  rw [Nat.zero_add] at h
  simp [array_process, h]

/-- C4: for every supported wire type, SQL NULL renders as the literal token
`NULL` at every nesting level: a NULL scalar column, a NULL array column
(not braces), and a NULL element inside a non-NULL array (inside the
braces) — including the cast array types, whose element loop renders a NULL
element as `NULL` with no cast round-trip, as the concrete interval array
with a NULL middle element shows. -/
theorem claim_C4 :
    ∀ (db : Db) (α : Type) (toStr : α → String) (tyName : String)
      (enc : α → CastParam) (xs : List (Option α)) (i len : Nat),
      single_process (none : Option α) toStr = "NULL"
      ∧ array_process (none : Option (List (Option α))) toStr = "NULL"
      ∧ single_process_cast db tyName enc none = Render.ok "NULL"
      ∧ array_process_cast db tyName enc none = Render.ok "NULL"
      ∧ array_process (some xs) toStr =
          "\x7b" ++ join_sep "," (xs.map fun o => single_process o toStr) ++ "\x7d"
      ∧ (array_elems_cast db tyName enc (none :: xs) i len =
          (match array_elems_cast db tyName enc xs (i + 1) len with
           | .panic m => Render.panic m
           | .ok ts => Render.ok ("NULL" ++ (if i < len - 1 then "," else "") ++ ts)))
      ∧ array_process_cast db_cast_ok "INTERVAL" CastParam.interval
          (some [some ⟨0, 0, 1000000⟩, none, some ⟨0, 0, 1000000⟩]) =
          Render.ok "\x7b00:00:01,NULL,00:00:01\x7d"
      ∧ render_column db (.int2 none) = Render.ok "NULL"
      ∧ render_column db (.int4 none) = Render.ok "NULL"
      ∧ render_column db (.int8 none) = Render.ok "NULL"
      ∧ render_column db (.numeric none) = Render.ok "NULL"
      ∧ render_column db (.date none) = Render.ok "NULL"
      ∧ render_column db (.time none) = Render.ok "NULL"
      ∧ render_column db (.timestamp none) = Render.ok "NULL"
      ∧ render_column db (.boolean none) = Render.ok "NULL"
      ∧ render_column db (.varchar none) = Render.ok "NULL"
      ∧ render_column db (.float4 none) = Render.ok "NULL"
      ∧ render_column db (.float8 none) = Render.ok "NULL"
      ∧ render_column db (.interval none) = Render.ok "NULL"
      ∧ render_column db (.timestamptz none) = Render.ok "NULL"
      ∧ render_column db (.int2Array none) = Render.ok "NULL"
      ∧ render_column db (.int4Array none) = Render.ok "NULL"
      ∧ render_column db (.int8Array none) = Render.ok "NULL"
      ∧ render_column db (.boolArray none) = Render.ok "NULL"
      ∧ render_column db (.float4Array none) = Render.ok "NULL"
      ∧ render_column db (.float8Array none) = Render.ok "NULL"
      ∧ render_column db (.numericArray none) = Render.ok "NULL"
      ∧ render_column db (.dateArray none) = Render.ok "NULL"
      ∧ render_column db (.timeArray none) = Render.ok "NULL"
      ∧ render_column db (.timestampArray none) = Render.ok "NULL"
      ∧ render_column db (.varcharArray none) = Render.ok "NULL"
      ∧ render_column db (.intervalArray none) = Render.ok "NULL"
      ∧ render_column db (.timestamptzArray none) = Render.ok "NULL" := by
  intro db α toStr tyName enc xs i len
  refine ⟨rfl, rfl, rfl, rfl, array_process_some_eq toStr xs, rfl, rfl, rfl, rfl, rfl,
    rfl, rfl, rfl, rfl, rfl, rfl, rfl, rfl, rfl, rfl, rfl, rfl, rfl, rfl, rfl, rfl,
    rfl, rfl, rfl, rfl, rfl, rfl, rfl⟩

/-- C5: a non-NULL one-dimensional array renders as an opening brace, the
element canonical texts in order separated by exactly one comma with no
trailing comma, and a closing brace, each element rendered by the same
scalar rule as a standalone column; a 3-element integer array with a NULL
middle element renders as braces around `1,NULL,3`. -/
theorem claim_C5 :
    ∀ (α : Type) (toStr : α → String) (xs : List (Option α)),
      (array_process (some xs) toStr =
        "\x7b" ++ join_sep "," (xs.map fun o => single_process o toStr) ++ "\x7d")
      ∧ array_process (some [some (1 : Int), none, some 3]) intDisplay = "\x7b1,NULL,3\x7d" :=
  fun _ toStr xs => ⟨array_process_some_eq toStr xs, by decide⟩

/-- C6: a successful `run` of a query is the concatenation, in returned row
order, of one line per row, each line its column canonical texts in order
joined by exactly one space and terminated by exactly one newline; a result
set with zero rows yields the empty string. -/
theorem claim_C6 :
    ∀ (db : Db) (sql : String) (rows : List (List PgValue)) (s : String),
      (render_rows db [] = Render.ok "")
      ∧ (render_rows db rows = Render.ok s → s = concat_all (rows.map (row_line db)))
      ∧ (is_query_sql sql = true → db.query sql [] = Except.ok rows →
          render_rows db rows = Render.ok s → run db sql = RunResult.ok s) := by
  intro db sql rows s
  refine ⟨rfl, render_rows_ok db rows s, fun h1 h2 h3 => ?_⟩
  simp [run, h1, h2, h3]

/-- C6 (witness): a two-column row holding `1` and the empty text renders as
the line `1 (empty)` with one space and one newline. -/
theorem claim_C6_witness :
    ("1 (empty)\n" =
      concat_all ([[PgValue.int4 (some 1), PgValue.varchar (some "")]].map
        (row_line db_row_example)))
    ∧ run db_row_example "select a, b" = RunResult.ok "1 (empty)\n" :=
  ⟨(claim_C6 db_row_example "select a, b"
      [[PgValue.int4 (some 1), PgValue.varchar (some "")]] "1 (empty)\n").2.1 rfl,
   (claim_C6 db_row_example "select a, b"
      [[PgValue.int4 (some 1), PgValue.varchar (some "")]] "1 (empty)\n").2.2
      (by decide) rfl rfl⟩

/-- C7: float canonicalization is total over the value classes the source
distinguishes: NaN renders as `NaN`, positive infinity as `Infinity`,
negative infinity as `-Infinity`, and every other (finite) value as its
default decimal Display text, for both single and double precision. -/
theorem claim_C7 :
    ∀ (t : String),
      float4_to_str FloatRepr.nan = "NaN"
      ∧ float4_to_str FloatRepr.inf = "Infinity"
      ∧ float4_to_str FloatRepr.neginf = "-Infinity"
      ∧ float4_to_str (FloatRepr.finite t) = t
      ∧ float8_to_str FloatRepr.nan = "NaN"
      ∧ float8_to_str FloatRepr.inf = "Infinity"
      ∧ float8_to_str FloatRepr.neginf = "-Infinity"
      ∧ float8_to_str (FloatRepr.finite t) = t :=
  fun _ => ⟨rfl, rfl, rfl, rfl, rfl, rfl, rfl, rfl⟩

/-- C8: a non-NULL interval or zoned-timestamp value (scalar or array
element) is rendered by issuing the secondary statement
`select ($1::TYPE)::varchar` through the same connection with the value
bound as the single parameter; the single returned cell is used verbatim,
and an empty returned text fails the assertion and panics (a fatal
invariant violation, not a normal error). -/
theorem claim_C8 :
    ∀ (db : Db) (iv : Interval) (tz : TimestampTz) (tyName : String) (p : CastParam)
      (s : String) (rest : List (Option Interval)) (i len : Nat),
      (cast_sql "INTERVAL" = "select ($1::INTERVAL)::varchar")
      ∧ (cast_sql "TIMESTAMPTZ" = "select ($1::TIMESTAMPTZ)::varchar")
      ∧ (render_column db (PgValue.interval (some iv)) =
          cast_cell db "INTERVAL" (CastParam.interval iv))
      ∧ (render_column db (PgValue.timestamptz (some tz)) =
          cast_cell db "TIMESTAMPTZ" (CastParam.timestamptz tz))
      ∧ (cast_cell db tyName p = cast_response (db.query (cast_sql tyName) [p]))
      ∧ (db.query (cast_sql tyName) [p] = Except.ok [[PgValue.varchar (some s)]] →
          s ≠ "" → cast_cell db tyName p = Render.ok s)
      ∧ (db.query (cast_sql tyName) [p] = Except.ok [[PgValue.varchar (some "")]] →
          cast_cell db tyName p = Render.panic "assertion failed: value.len() > 0")
      ∧ (array_elems_cast db "INTERVAL" CastParam.interval (some iv :: rest) i len =
          (match cast_cell db "INTERVAL" (CastParam.interval iv) with
           | .panic m => Render.panic m
           | .ok t =>
             match array_elems_cast db "INTERVAL" CastParam.interval rest (i + 1) len with
             | .panic m => Render.panic m
             | .ok ts => Render.ok (t ++ (if i < len - 1 then "," else "") ++ ts))) := by
  intro db iv tz tyName p s rest i len
  refine ⟨rfl, rfl, rfl, rfl, rfl, fun h hne => ?_, fun h => ?_, rfl⟩
  · have hpos : s.length > 0 := by
      obtain ⟨l⟩ := s
      cases l with
      | nil => cases hne rfl
      | cons c cs => exact Nat.succ_pos cs.length
    unfold cast_cell
    rw [h]
    show (if s.length > 0 then Render.ok s
          else Render.panic "assertion failed: value.len() > 0") = Render.ok s
    rw [if_pos hpos]
  · unfold cast_cell
    rw [h]
    rfl

/-- C8 (witness): a concrete interval cast round-trip returning `00:00:01`
is used verbatim, and a concrete round-trip returning the empty text
panics. -/
theorem claim_C8_witness :
    cast_cell db_cast_ok "INTERVAL" (CastParam.interval ⟨0, 0, 1000000⟩) =
      Render.ok "00:00:01"
    ∧ cast_cell db_cast_ok "TIMESTAMPTZ" (CastParam.timestamptz ⟨0⟩) =
        Render.panic "assertion failed: value.len() > 0" :=
  ⟨(claim_C8 db_cast_ok ⟨0, 0, 1000000⟩ ⟨0⟩ "INTERVAL"
      (CastParam.interval ⟨0, 0, 1000000⟩) "00:00:01" [] 0 0).2.2.2.2.2.1 rfl (by decide),
   (claim_C8 db_cast_ok ⟨0, 0, 1000000⟩ ⟨0⟩ "TIMESTAMPTZ"
      (CastParam.timestamptz ⟨0⟩) "" [] 0 0).2.2.2.2.2.2.1 rfl⟩

/-- C9: a column whose wire type matches no supported arm hits the `todo!`
fallback: its rendering is a panic, and a query whose result set contains
such a column makes `run` abort with a panic (neither an `Ok` string nor an
`Err`), so no canonical text is ever produced for it. -/
theorem claim_C9 :
    ∀ (db : Db) (typeName : String) (sql : String) (rows : List (List PgValue))
      (row : List PgValue),
      (render_column db (PgValue.unsupported typeName) =
        Render.panic ("not yet implemented: Don't support " ++ typeName ++ " type now."))
      ∧ (is_query_sql sql = true → db.query sql [] = Except.ok rows → row ∈ rows →
          PgValue.unsupported typeName ∈ row → (run db sql).isPanic = true) := by
  intro db typeName sql rows row
  refine ⟨rfl, fun h1 h2 h3 h4 => ?_⟩
  have hp := render_rows_panics_of_unsupported db typeName rows row h3 h4
  cases hr : render_rows db rows with
  | ok out => rw [hr] at hp; simp [Render.isPanic] at hp
  | panic m => simp [run, h1, h2, hr, RunResult.isPanic]

/-- C9 (witness): a concrete result set holding a column of the unsupported
type `money` makes `run` panic. -/
theorem claim_C9_witness : (run db_unsupported "select m").isPanic = true :=
  (claim_C9 db_unsupported "money" "select m" [[PgValue.unsupported "money"]]
    [PgValue.unsupported "money"]).2 (by decide) rfl (by decide) (by decide)

/-- C10: a SQL text whose first character is whitespace is classified as a
non-result command even if the keyword after it is one of the five query
prefixes, because classification tests a prefix of the raw untrimmed text;
such a statement is executed through `execute` and `run` returns the empty
string on success. -/
theorem claim_C10 :
    ∀ (db : Db) (c : Char) (cs : List Char) (n : Nat),
      c.isWhitespace = true →
      is_query_sql (String.mk (c :: cs)) = false
      ∧ (db.execute (String.mk (c :: cs)) = Except.ok n →
          run db (String.mk (c :: cs)) = RunResult.ok "") := by
  intro db c cs n hws
  have hc : ((c = ' ' ∨ c = '\t') ∨ c = '\r') ∨ c = '\n' := by
    simpa [Char.isWhitespace, Bool.or_eq_true, decide_eq_true_eq] using hws
  have hfalse : is_query_sql (String.mk (c :: cs)) = false := by
    rcases hc with ((rfl | rfl) | rfl) | rfl <;> rfl
  refine ⟨hfalse, fun hex => ?_⟩
  simp [run, hfalse, hex]

/-- C10 (witness): the text `SELECT 1` preceded by one space goes through
`execute` and `run` returns the empty string. -/
theorem claim_C10_witness :
    is_query_sql (String.mk (' ' :: String.data "SELECT 1")) = false
    ∧ run db_one_int (String.mk (' ' :: String.data "SELECT 1")) = RunResult.ok "" :=
  ⟨(claim_C10 db_one_int ' ' (String.data "SELECT 1") 0 (by decide)).1,
   (claim_C10 db_one_int ' ' (String.data "SELECT 1") 0 (by decide)).2 rfl⟩

end PgExt
